import Mathlib

/-! Shallow embedding of the order-execution and fill-monitoring engine in
src/morelogin/nado/open_page.py, together with theorems about the embedded
code.  Prices are integer cents (as in the source, which multiplies venue
prices by 100), price offsets are exact rationals standing for the decimal
values read from configuration, and elapsed time in the fill monitor is
idealized as poll-index times check-interval: poll number j of the loop in
monitor_order_fill happens at elapsed time j * checkInterval, reads and
clicks taking no time.  Loops are given explicit fuel; every theorem below
supplies enough fuel for the run it describes. -/

/-- Trade direction, the string parameter direction in {"long", "short"} of the
source functions. -/
inductive Direction where
  | long : Direction
  | short : Direction
deriving DecidableEq

/-- A quote as produced by get_price_from_api (lines 189-282): bid and ask in
integer cents, either side possibly absent from the API answer. -/
structure Quote where
  bid : Option ℤ
  ask : Option ℤ
deriving DecidableEq

/-- Embedding of the Python builtin round as applied on line 860 of the source
to the value price_offset * 100: round to the nearest integer, exact halves
going to the even neighbour (bankers rounding, the Python 3 semantics of
round).  The embedding works on exact rationals; it agrees with the source for
every offset whose decimal-to-binary float computation is exact, in particular
for all the inputs used in theorems below. -/
def pyRound (q : ℚ) : ℤ :=
  if q - ⌊q⌋ < 1/2 then ⌊q⌋
  else if 1/2 < q - ⌊q⌋ then ⌊q⌋ + 1
  else if ⌊q⌋ % 2 = 0 then ⌊q⌋ else ⌊q⌋ + 1

/-- Line 860: price_offset_int = int(round(price_offset * 100)). -/
def offsetCents (off : ℚ) : ℤ := pyRound (off * 100)

/-- Written from the words of the spec, for comparison with the code: round
half up, meaning exact halves round away from zero toward the larger
magnitude.  This is NOT the rounding the source uses; see the C8 theorems. -/
def roundHalfAwayFromZero (q : ℚ) : ℤ :=
  if 0 ≤ q then ⌊q + 1/2⌋ else -⌊-q + 1/2⌋

/-- Lines 853-861 of get_and_calculate_order_price, given an already fetched
quote: direction long reads the bid and subtracts the scaled offset, direction
short reads the ask and adds the absolute value of the scaled offset; a
missing side yields none (the source prints and returns (None, None)). -/
def computeOrderPrice (q : Quote) (off : ℚ) (d : Direction) : Option ℤ :=
  match d with
  | Direction.long => q.bid.map fun pn => pn - offsetCents off
  | Direction.short => q.ask.map fun pn => pn + |offsetCents off|

/-- The three outcomes of monitor_order_fill (lines 585-625): the source
returns True for a fill, None to request a resubmission, and False for the
absolute timeout. -/
inductive MonitorOutcome where
  | filled : MonitorOutcome
  | timedOut : MonitorOutcome
  | needsResubmit : MonitorOutcome
deriving DecidableEq

/-- The three timing parameters of monitor_order_fill, in seconds:
check_interval, max_wait_time, retry_timeout. -/
structure MonitorCfg where
  checkInterval : ℚ
  maxWaitTime : ℚ
  retryTimeout : ℚ

/-- Embedding of monitor_order_fill (lines 585-625).  b is the baseline
position snapshot captured before submission; a snapshot is an Option String
because get_nado_position (lines 1089-1119) returns the displayed text or None
when nothing is found or its internal lookup fails.  r j describes poll number
j: none means the read raised and the except clause on line 617 swallows it,
some v means get_nado_position returned v.  Elapsed time at poll j is
idealized as j * checkInterval.  The first argument of the recursion is fuel
bounding the number of polls; none as result means the fuel ran out before the
loop decided.  The source checks retry_timeout before max_wait_time, compares
the freshly read value against the baseline with Python inequality, and on
reaching max_wait_time exactly falls through to the break and returns False. -/
def monitor_order_fill (cfg : MonitorCfg) (b : Option String)
    (r : ℕ → Option (Option String)) : ℕ → ℕ → Option MonitorOutcome
  | 0, _ => none
  | fuel + 1, k =>
    if cfg.retryTimeout ≤ (k : ℚ) * cfg.checkInterval then
      some MonitorOutcome.needsResubmit
    else if cfg.maxWaitTime < (k : ℚ) * cfg.checkInterval then
      some MonitorOutcome.timedOut
    else
      match r k with
      | some v =>
        if v ≠ b then some MonitorOutcome.filled
        else if (k : ℚ) * cfg.checkInterval < cfg.maxWaitTime then
          monitor_order_fill cfg b r fuel (k + 1)
        else some MonitorOutcome.timedOut
      | none =>
        if (k : ℚ) * cfg.checkInterval < cfg.maxWaitTime then
          monitor_order_fill cfg b r fuel (k + 1)
        else some MonitorOutcome.timedOut

/-- Observable order-management events of one run of
execute_nado_order_with_retry: a cancel_all_orders call, or an
execute_nado_order call carrying the computed limit price in cents. -/
inductive Ev where
  | cancel : Ev
  | submit : ℤ → Ev
deriving DecidableEq

/-- True exactly on submit events. -/
def isSubmitEv : Ev → Bool
  | Ev.cancel => false
  | Ev.submit _ => true

/-- True exactly on cancel events. -/
def isCancelEv : Ev → Bool
  | Ev.cancel => true
  | Ev.submit _ => false

/-- Number of order submissions in a trace. -/
def countSubmit (l : List Ev) : ℕ := (l.filter isSubmitEv).length

/-- Checks that in every adjacent pair of events whose second component is a
submission, the first is a cancel: every submission other than the one opening
the trace is immediately preceded by a cancel-all-orders call. -/
def eachResubAfterCancel : List Ev → Bool
  | x :: y :: rest => (!(isSubmitEv y) || isCancelEv x) && eachResubAfterCancel (y :: rest)
  | _ => true

/-- What the environment answers during retry attempt number k of
execute_nado_order_with_retry: the quote the price API produced (none when the
API failed), whether execute_nado_order succeeded, and what the monitor
decided for this attempt. -/
structure Attempt where
  quote : Option Quote
  submitOk : Bool
  monitor : MonitorOutcome

/-- The cancel-all call opening every iteration with retry_count > 0
(lines 920-923). -/
def preEv (k : ℕ) : List Ev := if 0 < k then [Ev.cancel] else []

/-- Embedding of the while loop of execute_nado_order_with_retry
(lines 917-947).  k is retry_count, fuel is max_retries - retry_count.
Each iteration: when retry_count > 0, cancel all orders first; fetch and
compute the price (failure returns False at once); submit (recording the
event; failure returns False at once); then branch on the monitor outcome:
True returns True, None increments retry_count and loops, False returns
False.  Exhausting the loop returns False.  The result is the returned
boolean together with the trace of cancel and submit events. -/
def retryLoop (d : Direction) (off : ℚ) (env : ℕ → Attempt) : ℕ → ℕ → Bool × List Ev
  | 0, _ => (false, [])
  | fuel + 1, k =>
    match (env k).quote.bind (fun q => computeOrderPrice q off d) with
    | none => (false, preEv k)
    | some p =>
      if (env k).submitOk then
        match (env k).monitor with
        | MonitorOutcome.filled => (true, preEv k ++ [Ev.submit p])
        | MonitorOutcome.timedOut => (false, preEv k ++ [Ev.submit p])
        | MonitorOutcome.needsResubmit =>
          let res := retryLoop d off env fuel (k + 1)
          (res.1, preEv k ++ Ev.submit p :: res.2)
      else (false, preEv k ++ [Ev.submit p])

/-- execute_nado_order_with_retry (lines 902-947): the retry loop started at
retry_count = 0 with fuel max_retries. -/
def execute_nado_order_with_retry (d : Direction) (off : ℚ) (env : ℕ → Attempt)
    (maxRetries : ℕ) : Bool × List Ev :=
  retryLoop d off env maxRetries 0

/-- One loaded trade specification: symbol, size and price offset of the first
configuration row, as read by method1 and method2. -/
structure TradeConfig where
  symbol : String
  size : String
  priceOffset : ℚ

/-- The hedge leg submitted on the secondary (variational) venue: its side and
its size. -/
structure HedgeCall where
  direction : Direction
  size : String
deriving DecidableEq

/-- What a top-level method run produces: whether the primary leg reported a
fill, the hedge call attempted on the secondary venue (none when skipped), and
the primary-venue event trace. -/
structure MethodResult where
  filled : Bool
  hedge : Option HedgeCall
  trace : List Ev

/-- method1 (lines 997-1026): long on nado with max_retries = 3; on fill it
runs execute_variational_short, which submits direction short with the size of
the configuration; otherwise the variational step is skipped. -/
def method1 (cfg : TradeConfig) (env : ℕ → Attempt) : MethodResult :=
  let res := execute_nado_order_with_retry Direction.long cfg.priceOffset env 3
  { filled := res.1
    hedge := if res.1 then some { direction := Direction.short, size := cfg.size } else none
    trace := res.2 }

/-- method2 (lines 1029-1055): short on nado with max_retries = 999; on fill
it runs execute_variational_long with the size of the configuration. -/
def method2 (cfg : TradeConfig) (env : ℕ → Attempt) : MethodResult :=
  let res := execute_nado_order_with_retry Direction.short cfg.priceOffset env 999
  { filled := res.1
    hedge := if res.1 then some { direction := Direction.long, size := cfg.size } else none
    trace := res.2 }

/-- State of the Cancel all button of the open-orders panel: whether it
carries the disabled attribute, and whether clicking it succeeds. -/
structure CancelBtn where
  disabled : Bool
  clickOk : Bool

/-- State of the page as cancel_all_orders observes it: whether the Open
Orders tab is found and clicked, the Cancel all button when present, and
whether one of the page operations after the tab click raises (caught by the
outer except on lines 477-479). -/
structure CancelPage where
  tabOk : Bool
  btn : Option CancelBtn
  outerRaises : Bool

/-- Embedding of cancel_all_orders (lines 440-479): failure to open the order
list returns False; afterwards every path returns True: an exception is caught
and treated as success, a missing button counts as no orders, a disabled
button counts as no orders, and a click is attempted with failures ignored. -/
def cancel_all_orders (p : CancelPage) : Bool :=
  if p.tabOk = false then false
  else if p.outerRaises = true then true
  else
    match p.btn with
    | some cb => if cb.disabled = true then true else if cb.clickOk = true then true else true
    | none => true

/-- A page state showing an empty open-order set: the venue renders no
enabled Cancel all button, that is the button is absent or disabled (the
source comments on lines 465 and 474-476 read both as there being no
orders). -/
def noOpenOrders (p : CancelPage) : Prop :=
  p.btn = none ∨ ∃ cb, p.btn = some cb ∧ cb.disabled = true

/-- An environment in which every attempt gets a two-sided quote, every
submission succeeds, and every monitor round asks for resubmission. -/
def allResubmitEnv : ℕ → Attempt := fun _ =>
  { quote := some { bid := some 9060200, ask := some 9060400 }
    submitOk := true
    monitor := MonitorOutcome.needsResubmit }

/-- The trade specification of the end-to-end scenario: symbol BTC, size
0.0001, price offset -5.00. -/
def btcConfig : TradeConfig := { symbol := "BTC", size := "0.0001", priceOffset := -5 }

/-- The quote of the end-to-end scenario: bid 9060200 cents, ask 9060400
cents. -/
def c1Quote : Quote := { bid := some 9060200, ask := some 9060400 }

/-- Environment of the end-to-end scenario: the first attempt gets the quote
above, submits successfully, and the monitor observes a position change within
the retry timeout, reporting a fill. -/
def c1Env : ℕ → Attempt := fun _ =>
  { quote := some c1Quote, submitOk := true, monitor := MonitorOutcome.filled }

/-- Environment exercising the three terminal behaviours of the retry loop:
attempt 0 fills, attempt 1 times out, attempt 2 fails to submit. -/
def c6Env : ℕ → Attempt := fun k =>
  if k = 0 then { quote := some c1Quote, submitOk := true, monitor := MonitorOutcome.filled }
  else if k = 1 then { quote := some c1Quote, submitOk := true, monitor := MonitorOutcome.timedOut }
  else { quote := some c1Quote, submitOk := false, monitor := MonitorOutcome.needsResubmit }

/-- The monitor configuration of the actual call on line 937:
check_interval = 0.5, max_wait_time = 300, retry_timeout = 30 seconds. -/
def nadoCfg : MonitorCfg := { checkInterval := 1/2, maxWaitTime := 300, retryTimeout := 30 }

/-- A configuration whose first sleep jumps past both thresholds: interval 40,
max wait 10, retry timeout 30. -/
def c3Cfg : MonitorCfg := { checkInterval := 40, maxWaitTime := 10, retryTimeout := 30 }

/-- A configuration in which the absolute ceiling is crossed strictly before
the retry threshold: interval 1, max wait 3, retry timeout 10. -/
def c3WitnessCfg : MonitorCfg := { checkInterval := 1, maxWaitTime := 3, retryTimeout := 10 }

/-- The call configuration with a one-second polling interval: retry timeout
30 strictly below the max wait 300. -/
def c4WitnessCfg : MonitorCfg := { checkInterval := 1, maxWaitTime := 300, retryTimeout := 30 }

/-- Claim C2 as stated: for every quote with both sides present and every
signed offset, the long price is at most the bid, the short price is at least
the ask, and equality holds only when the offset is zero. -/
def ClaimC2 : Prop :=
  ∀ (b a : ℤ) (off : ℚ) (pl ps : ℤ),
    computeOrderPrice { bid := some b, ask := some a } off Direction.long = some pl →
    computeOrderPrice { bid := some b, ask := some a } off Direction.short = some ps →
    pl ≤ b ∧ a ≤ ps ∧ ((pl = b ∨ ps = a) → off = 0)

/-- Claim C3 as stated: for every configuration, whenever the position never
changes from the baseline and the run reaches a poll whose elapsed time
exceeds maxWaitTime, the outcome is TimedOut. -/
def ClaimC3 : Prop :=
  ∀ (cfg : MonitorCfg) (b : Option String) (r : ℕ → Option (Option String))
    (fuel : ℕ) (out : MonitorOutcome),
    (∀ j, r j = some b) →
    monitor_order_fill cfg b r fuel 0 = some out →
    (∃ k, k < fuel ∧ cfg.maxWaitTime < (k : ℚ) * cfg.checkInterval) →
    out = MonitorOutcome.timedOut

/-- Claim C5 as stated: the monitor returns Filled only when some poll
successfully read a snapshot differing from the baseline. -/
def ClaimC5 : Prop :=
  ∀ (cfg : MonitorCfg) (b : Option String) (r : ℕ → Option (Option String)) (fuel : ℕ),
    monitor_order_fill cfg b r fuel 0 = some MonitorOutcome.filled →
    ∃ j s, r j = some (some s) ∧ some s ≠ b

/-- Claim C8 as stated: the scaling of the decimal offset to integer cents is
round-half-up, halves away from zero. -/
def ClaimC8 : Prop :=
  ∀ off : ℚ, offsetCents off = roundHalfAwayFromZero (off * 100)

/-- The rounding the source uses (Python round) picks an integer at distance
at most one half, and at an exact half it picks the even neighbour. -/
lemma pyRound_le_half (q : ℚ) :
    |q - (pyRound q : ℚ)| ≤ 1/2 ∧ (|q - (pyRound q : ℚ)| = 1/2 → pyRound q % 2 = 0) := by
  have h0 : ((⌊q⌋ : ℤ) : ℚ) ≤ q := Int.floor_le q
  have h1 : q < ⌊q⌋ + 1 := Int.lt_floor_add_one q
  unfold pyRound
  split_ifs with ha hb hc
  · rw [abs_of_nonneg (by linarith)]
    refine ⟨le_of_lt ha, fun he => ?_⟩
    exfalso
    linarith
  · have hb2 : (1:ℚ)/2 < q - ⌊q⌋ := hb
    have hle : q - ((⌊q⌋ + 1 : ℤ) : ℚ) ≤ 0 := by push_cast; linarith
    rw [abs_of_nonpos hle]
    push_cast
    refine ⟨by linarith, fun he => ?_⟩
    exfalso
    linarith
  · have hr : q - ((⌊q⌋ : ℤ) : ℚ) = 1/2 := le_antisymm (not_lt.mp hb) (not_lt.mp ha)
    rw [abs_of_nonneg (by linarith)]
    exact ⟨by linarith, fun _ => hc⟩
  · have hr : q - ((⌊q⌋ : ℤ) : ℚ) = 1/2 := le_antisymm (not_lt.mp hb) (not_lt.mp ha)
    have hle : q - ((⌊q⌋ + 1 : ℤ) : ℚ) ≤ 0 := by push_cast; linarith
    rw [abs_of_nonpos hle]
    push_cast
    refine ⟨by linarith, fun _ => ?_⟩
    omega

/-- C1 counterexample: with the quote of the end-to-end scenario and the
offset -5.00 of the scenario, get_and_calculate_order_price computes the long
order price 9060700, not the 9059700 the claim states: the scaled offset is
-500 cents and line 861 subtracts it from the bid, so a negative offset is
added to the bid. -/
theorem c1_counterexample :
    computeOrderPrice c1Quote (-5) Direction.long = some 9060700
    ∧ (9060700 : ℤ) ≠ 9059700 := by
  constructor
  · simp only [c1Quote, computeOrderPrice, Option.map_some', Option.some.injEq]
    norm_num [offsetCents, pyRound]
  · norm_num

/-- C2 counterexample: at bid 100, ask 200 and offset -1.00, the long order
price is 200, which is strictly greater than the bid, refuting the claim that
the long price never exceeds the bid for every signed offset. -/
theorem c2_counterexample : ¬ ClaimC2 := by
  intro h
  have e1 : computeOrderPrice { bid := some (100:ℤ), ask := some 200 } (-1) Direction.long
      = some 200 := by
    simp only [computeOrderPrice, Option.map_some', Option.some.injEq]
    norm_num [offsetCents, pyRound]
  have e2 : computeOrderPrice { bid := some (100:ℤ), ask := some 200 } (-1) Direction.short
      = some 300 := by
    simp only [computeOrderPrice, Option.map_some', Option.some.injEq]
    norm_num [offsetCents, pyRound]
  have h2 := (h 100 200 (-1) 200 300 e1 e2).1
  exact absurd h2 (by norm_num)

/-- C2 (amended): for a two-sided quote, the long price is bid minus the
scaled offset and the short price is ask plus its absolute value, so the long
price is at most the bid exactly when the scaled offset is nonnegative, the
short price is at least the ask for every offset, and either equality holds
exactly when the offset scaled to cents is zero (which also happens for small
nonzero offsets that round to zero cents). -/
theorem c2_price_bounds (b a : ℤ) (off : ℚ) :
    computeOrderPrice { bid := some b, ask := some a } off Direction.long
      = some (b - offsetCents off)
    ∧ computeOrderPrice { bid := some b, ask := some a } off Direction.short
      = some (a + |offsetCents off|)
    ∧ (0 ≤ offsetCents off → b - offsetCents off ≤ b)
    ∧ a ≤ a + |offsetCents off|
    ∧ (b - offsetCents off = b ↔ offsetCents off = 0)
    ∧ (a + |offsetCents off| = a ↔ offsetCents off = 0) := by
  refine ⟨rfl, rfl, fun h => by omega, ?_, by omega, ?_⟩
  · linarith [abs_nonneg (offsetCents off)]
  · constructor
    · intro h
      have h0 : |offsetCents off| = 0 := by linarith [abs_nonneg (offsetCents off)]
      exact abs_eq_zero.mp h0
    · intro h
      rw [h]
      simp

/-- C2 witness: at offset 5.00 the scaled offset is the nonnegative 500
cents, and the long price 9060200 - 500 is below the bid. -/
theorem c2_price_bounds_witness :
    (0 : ℤ) ≤ offsetCents 5 ∧ 9060200 - offsetCents 5 ≤ 9060200 := by
  have h := (c2_price_bounds 9060200 9060400 5).2.2.1
  have h5 : (0 : ℤ) ≤ offsetCents 5 := by norm_num [offsetCents, pyRound]
  exact ⟨h5, h h5⟩

/-- C8 counterexample: at offset 0.125, an exact half cent, the source scales
to round(12.5) = 12 cents (Python rounds halves to even), while the round-half
-up rule of the claim gives 13; the float computation 0.125 * 100 is exact in
binary, so the rational model is faithful at this input. -/
theorem c8_counterexample : ¬ ClaimC8 := by
  intro h
  have h8 := h (1/8)
  rw [show offsetCents (1/8 : ℚ) = 12 from by norm_num [offsetCents, pyRound],
      show roundHalfAwayFromZero ((1/8 : ℚ) * 100) = 13 from by
        norm_num [roundHalfAwayFromZero]] at h8
  exact absurd h8 (by norm_num)

/-- C8 (amended): the scaling of the decimal offset to integer cents is the
deterministic function offsetCents; it rounds to a nearest integer, exact
halves of a cent going to the even neighbour (Python bankers rounding, not
round-half-up); the scaled value is subtracted from the bid for long and its
absolute value is added to the ask for short. -/
theorem c8_rounding (off : ℚ) (b a : ℤ) :
    |off * 100 - (offsetCents off : ℚ)| ≤ 1/2
    ∧ (|off * 100 - (offsetCents off : ℚ)| = 1/2 → offsetCents off % 2 = 0)
    ∧ computeOrderPrice { bid := some b, ask := some a } off Direction.long
      = some (b - offsetCents off)
    ∧ computeOrderPrice { bid := some b, ask := some a } off Direction.short
      = some (a + |offsetCents off|) := by
  obtain ⟨h1, h2⟩ := pyRound_le_half (off * 100)
  exact ⟨h1, h2, rfl, rfl⟩

/-- C8 witness: offset 0.125 scales to 12.5 cents, an exact half, and the
chosen integer 12 is even. -/
theorem c8_rounding_witness : offsetCents (1/8) % 2 = 0 := by
  have h := (c8_rounding (1/8) 9060200 9060400).2.1
  apply h
  rw [show offsetCents (1/8 : ℚ) = 12 from by norm_num [offsetCents, pyRound]]
  norm_num

/-- C9: when the open-orders panel opens and the page shows no enabled Cancel
all button (absent or disabled, the two renderings of an empty open-order set;
element lookup on a broken page is out of scope), cancel_all_orders reports
success.  The source in fact returns True on every path after the panel
opens. -/
theorem c9_cancel_no_orders (p : CancelPage) (htab : p.tabOk = true)
    (h : noOpenOrders p) : cancel_all_orders p = true := by
  rcases p with ⟨tab, btn, raises⟩
  simp only at htab
  subst htab
  rcases btn with _ | cb
  · cases raises <;> rfl
  · rcases cb with ⟨d, c⟩
    cases raises <;> cases d <;> cases c <;> rfl

/-- C9 witness: the panel opens, no Cancel all button is rendered, nothing
raises; the call returns success. -/
theorem c9_cancel_no_orders_witness :
    cancel_all_orders { tabOk := true, btn := none, outerRaises := false } = true :=
  c9_cancel_no_orders { tabOk := true, btn := none, outerRaises := false } rfl (Or.inl rfl)

/-- A poll that is inside both time thresholds and observes no change (equal
snapshot or swallowed exception) hands over to the next poll. -/
lemma monitor_step (cfg : MonitorCfg) (b : Option String) (r : ℕ → Option (Option String))
    (fuel k : ℕ)
    (h1 : (k : ℚ) * cfg.checkInterval < cfg.retryTimeout)
    (h2 : (k : ℚ) * cfg.checkInterval < cfg.maxWaitTime)
    (h3 : r k = some b ∨ r k = none) :
    monitor_order_fill cfg b r (fuel + 1) k = monitor_order_fill cfg b r fuel (k + 1) := by
  have hn1 : ¬ cfg.retryTimeout ≤ (k : ℚ) * cfg.checkInterval := not_le.mpr h1
  have hn2 : ¬ cfg.maxWaitTime < (k : ℚ) * cfg.checkInterval := not_lt.mpr (le_of_lt h2)
  rcases h3 with h3 | h3
  · simp [monitor_order_fill, hn1, hn2, h3, h2]
  · simp [monitor_order_fill, hn1, hn2, h3, h2]

/-- Iterated form of the previous lemma: d no-change polls inside both
thresholds advance the poll counter by d. -/
lemma monitor_skip (cfg : MonitorCfg) (b : Option String) (r : ℕ → Option (Option String)) :
    ∀ (d m fuel : ℕ),
      (∀ j, m ≤ j → j < m + d →
        ((r j = some b ∨ r j = none)
          ∧ (j : ℚ) * cfg.checkInterval < cfg.retryTimeout
          ∧ (j : ℚ) * cfg.checkInterval < cfg.maxWaitTime)) →
      monitor_order_fill cfg b r (d + fuel) m = monitor_order_fill cfg b r fuel (m + d) := by
  intro d
  induction d with
  | zero =>
    intro m fuel _
    simp
  | succ n ih =>
    intro m fuel h
    have hm := h m le_rfl (by omega)
    have e1 : n + 1 + fuel = (n + fuel) + 1 := by omega
    rw [e1, monitor_step cfg b r (n + fuel) m hm.2.1 hm.2.2 hm.1]
    have e2 : m + (n + 1) = (m + 1) + n := by omega
    rw [e2]
    exact ih (m + 1) fuel fun j hj1 hj2 => h j (by omega) (by omega)

/-- A poll whose elapsed time has reached retry_timeout returns the
resubmission request, whatever the read produces. -/
lemma monitor_stop_resubmit (cfg : MonitorCfg) (b : Option String)
    (r : ℕ → Option (Option String)) (fuel k : ℕ)
    (h : cfg.retryTimeout ≤ (k : ℚ) * cfg.checkInterval) :
    monitor_order_fill cfg b r (fuel + 1) k = some MonitorOutcome.needsResubmit := by
  simp [monitor_order_fill, h]

/-- A no-change poll whose elapsed time has reached max_wait_time while still
strictly below retry_timeout returns the timeout. -/
lemma monitor_stop_timedOut (cfg : MonitorCfg) (b : Option String)
    (r : ℕ → Option (Option String)) (fuel k : ℕ)
    (h1 : (k : ℚ) * cfg.checkInterval < cfg.retryTimeout)
    (h2 : cfg.maxWaitTime ≤ (k : ℚ) * cfg.checkInterval)
    (h3 : r k = some b ∨ r k = none) :
    monitor_order_fill cfg b r (fuel + 1) k = some MonitorOutcome.timedOut := by
  have hn1 : ¬ cfg.retryTimeout ≤ (k : ℚ) * cfg.checkInterval := not_le.mpr h1
  rcases lt_or_eq_of_le h2 with hlt | heq
  · simp [monitor_order_fill, hn1, hlt]
  · have hn2 : ¬ cfg.maxWaitTime < (k : ℚ) * cfg.checkInterval := not_lt.mpr (le_of_eq heq.symm)
    have hn3 : ¬ (k : ℚ) * cfg.checkInterval < cfg.maxWaitTime := not_lt.mpr (le_of_eq heq)
    rcases h3 with h3 | h3
    · simp [monitor_order_fill, hn1, hn2, hn3, h3]
    · simp [monitor_order_fill, hn1, hn2, hn3, h3]

/-- A poll inside both thresholds whose read returns a value differing from
the baseline reports the fill. -/
lemma monitor_stop_filled (cfg : MonitorCfg) (b : Option String)
    (r : ℕ → Option (Option String)) (fuel k : ℕ) (v : Option String)
    (h1 : (k : ℚ) * cfg.checkInterval < cfg.retryTimeout)
    (h2 : ¬ cfg.maxWaitTime < (k : ℚ) * cfg.checkInterval)
    (h3 : r k = some v) (h4 : v ≠ b) :
    monitor_order_fill cfg b r (fuel + 1) k = some MonitorOutcome.filled := by
  simp [monitor_order_fill, not_le.mpr h1, h2, h3, h4]

/-- C3 counterexample: with interval 40, max wait 10 and retry timeout 30 the
position never changes, the deciding poll has elapsed time 40, beyond the max
wait of 10, yet the monitor returns NeedsResubmit, because line 606 tests
retry_timeout before line 609 tests max_wait_time. -/
theorem c3_counterexample : ¬ ClaimC3 := by
  intro h
  have e0 : monitor_order_fill c3Cfg (some "p") (fun _ => some (some "p")) 2 0
      = monitor_order_fill c3Cfg (some "p") (fun _ => some (some "p")) 1 1 := by
    apply monitor_step
    · norm_num [c3Cfg]
    · norm_num [c3Cfg]
    · exact Or.inl rfl
  have e1 : monitor_order_fill c3Cfg (some "p") (fun _ => some (some "p")) 1 1
      = some MonitorOutcome.needsResubmit := by
    apply monitor_stop_resubmit
    norm_num [c3Cfg]
  have hout := h c3Cfg (some "p") (fun _ => some (some "p")) 2 MonitorOutcome.needsResubmit
      (fun _ => rfl) (e0.trans e1) ⟨1, by norm_num, by norm_num [c3Cfg]⟩
  exact absurd hout (by simp)

/-- C3 (amended): the monitor returns TimedOut when the position never
changes and the first poll whose elapsed time has reached max_wait_time is
still strictly below retry_timeout; when elapsed time reaches retry_timeout
first, the retry check of line 606 wins and the outcome is NeedsResubmit
instead, so the claim holds only under this proviso, not for every
configuration. -/
theorem c3_timeout (cfg : MonitorCfg) (b : Option String)
    (r : ℕ → Option (Option String)) (k : ℕ)
    (hr : ∀ j, r j = some b)
    (hk1 : cfg.maxWaitTime ≤ (k : ℚ) * cfg.checkInterval)
    (hk2 : (k : ℚ) * cfg.checkInterval < cfg.retryTimeout)
    (hmin : ∀ j, j < k → (j : ℚ) * cfg.checkInterval < cfg.maxWaitTime) :
    monitor_order_fill cfg b r (k + 1) 0 = some MonitorOutcome.timedOut := by
  have hcond : ∀ j, 0 ≤ j → j < 0 + k →
      ((r j = some b ∨ r j = none)
        ∧ (j : ℚ) * cfg.checkInterval < cfg.retryTimeout
        ∧ (j : ℚ) * cfg.checkInterval < cfg.maxWaitTime) := by
    intro j _ hj2
    have hj : j < k := by omega
    exact ⟨Or.inl (hr j), lt_trans (hmin j hj) (lt_of_le_of_lt hk1 hk2), hmin j hj⟩
  rw [monitor_skip cfg b r k 0 1 hcond]
  simp only [Nat.zero_add]
  exact monitor_stop_timedOut cfg b r 0 k hk2 hk1 (Or.inl (hr k))

/-- C3 witness: interval 1, max wait 3, retry timeout 10, never-changing
position; the poll at elapsed time 3 reaches the max wait strictly below the
retry timeout and the monitor times out. -/
theorem c3_timeout_witness :
    monitor_order_fill c3WitnessCfg (some "q") (fun _ => some (some "q")) 4 0
      = some MonitorOutcome.timedOut := by
  apply c3_timeout c3WitnessCfg (some "q") (fun _ => some (some "q")) 3 (fun _ => rfl)
  · norm_num [c3WitnessCfg]
  · norm_num [c3WitnessCfg]
  · intro j hj
    have hq : (j : ℚ) < 3 := by exact_mod_cast hj
    simpa [c3WitnessCfg] using hq

/-- C4: with retry_timeout strictly below max_wait_time and no position
change observed before retry_timeout elapses, the monitor returns
NeedsResubmit at the first poll whose elapsed time reaches retry_timeout. -/
theorem c4_needs_resubmit (cfg : MonitorCfg) (b : Option String)
    (r : ℕ → Option (Option String)) (k : ℕ)
    (hlt : cfg.retryTimeout < cfg.maxWaitTime)
    (hnc : ∀ j : ℕ, (j : ℚ) * cfg.checkInterval < cfg.retryTimeout →
      (r j = some b ∨ r j = none))
    (hk1 : cfg.retryTimeout ≤ (k : ℚ) * cfg.checkInterval)
    (hmin : ∀ j, j < k → (j : ℚ) * cfg.checkInterval < cfg.retryTimeout) :
    monitor_order_fill cfg b r (k + 1) 0 = some MonitorOutcome.needsResubmit := by
  have hcond : ∀ j, 0 ≤ j → j < 0 + k →
      ((r j = some b ∨ r j = none)
        ∧ (j : ℚ) * cfg.checkInterval < cfg.retryTimeout
        ∧ (j : ℚ) * cfg.checkInterval < cfg.maxWaitTime) := by
    intro j _ hj2
    have hj : j < k := by omega
    exact ⟨hnc j (hmin j hj), hmin j hj, lt_trans (hmin j hj) hlt⟩
  rw [monitor_skip cfg b r k 0 1 hcond]
  simp only [Nat.zero_add]
  exact monitor_stop_resubmit cfg b r 0 k hk1

/-- C4 witness: interval 1, max wait 300, retry timeout 30, never-changing
position; the poll at elapsed time 30 asks for resubmission. -/
theorem c4_needs_resubmit_witness :
    monitor_order_fill c4WitnessCfg (some "w") (fun _ => some (some "w")) 31 0
      = some MonitorOutcome.needsResubmit := by
  apply c4_needs_resubmit c4WitnessCfg (some "w") (fun _ => some (some "w")) 30
  · norm_num [c4WitnessCfg]
  · exact fun j _ => Or.inl rfl
  · norm_num [c4WitnessCfg]
  · intro j hj
    have hq : (j : ℚ) < 30 := by exact_mod_cast hj
    simpa [c4WitnessCfg] using hq

/-- C5 counterexample: baseline is an existing position string; the very
first poll fails to read (get_nado_position returns None), the comparison
None != baseline on line 614 is true, and the monitor reports Filled although
no snapshot was ever successfully read: a read error is mistaken for fill
evidence. -/
theorem c5_counterexample : ¬ ClaimC5 := by
  intro h
  have e0 : monitor_order_fill nadoCfg (some "BTC 0.0001") (fun _ => some none) 1 0
      = some MonitorOutcome.filled := by
    apply monitor_stop_filled nadoCfg (some "BTC 0.0001") (fun _ => some none) 0 0 none
    · norm_num [nadoCfg]
    · norm_num [nadoCfg]
    · rfl
    · simp
  obtain ⟨j, s, hj, -⟩ := h nadoCfg (some "BTC 0.0001") (fun _ => some none) 1 e0
  have : (none : Option String) = some s := Option.some.inj hj
  exact Option.noConfusion this

/-- C5 (amended): exceptions raised during a poll are swallowed and treated
as no change yet, but a read that returns the failure value None is compared
like any snapshot, so against a non-None baseline it counts as fill evidence;
the monitor returns Filled at the first poll within both time thresholds
whose returned value (successful or not) differs from the baseline,
regardless of intervening swallowed exceptions. -/
theorem c5_fill_detection (cfg : MonitorCfg) (b : Option String)
    (r : ℕ → Option (Option String)) (K : ℕ) (v : Option String)
    (hmiss : ∀ j, j < K → (r j = some b ∨ r j = none))
    (hK : r K = some v) (hv : v ≠ b)
    (hrt : ∀ j, j ≤ K → (j : ℚ) * cfg.checkInterval < cfg.retryTimeout)
    (hmw : ∀ j, j ≤ K → (j : ℚ) * cfg.checkInterval < cfg.maxWaitTime) :
    monitor_order_fill cfg b r (K + 1) 0 = some MonitorOutcome.filled := by
  have hcond : ∀ j, 0 ≤ j → j < 0 + K →
      ((r j = some b ∨ r j = none)
        ∧ (j : ℚ) * cfg.checkInterval < cfg.retryTimeout
        ∧ (j : ℚ) * cfg.checkInterval < cfg.maxWaitTime) := by
    intro j _ hj2
    exact ⟨hmiss j (by omega), hrt j (by omega), hmw j (by omega)⟩
  rw [monitor_skip cfg b r K 0 1 hcond]
  simp only [Nat.zero_add]
  exact monitor_stop_filled cfg b r 0 K v (hrt K le_rfl)
    (not_lt.mpr (le_of_lt (hmw K le_rfl))) hK hv

/-- C5 witness: poll 0 reads the unchanged baseline, poll 1 raises and is
swallowed, poll 2 returns the failure value None, which differs from the
non-None baseline, and the monitor reports Filled. -/
theorem c5_fill_detection_witness :
    monitor_order_fill nadoCfg (some "p0")
      (fun j => if j = 0 then some (some "p0") else if j = 1 then none else some none) 3 0
      = some MonitorOutcome.filled := by
  apply c5_fill_detection nadoCfg (some "p0")
    (fun j => if j = 0 then some (some "p0") else if j = 1 then none else some none) 2 none
  · intro j hj
    interval_cases j
    · exact Or.inl rfl
    · exact Or.inr rfl
  · rfl
  · simp
  · intro j hj
    have hq : (j : ℚ) ≤ 2 := by exact_mod_cast hj
    have : (j : ℚ) * (1/2) < 30 := by linarith
    simpa [nadoCfg] using this
  · intro j hj
    have hq : (j : ℚ) ≤ 2 := by exact_mod_cast hj
    have : (j : ℚ) * (1/2) < 300 := by linarith
    simpa [nadoCfg] using this

/-- Submissions in a concatenation add up. -/
lemma countSubmit_append (l1 l2 : List Ev) :
    countSubmit (l1 ++ l2) = countSubmit l1 + countSubmit l2 := by
  simp [countSubmit, List.filter_append]

/-- The optional leading cancel contains no submission. -/
lemma countSubmit_preEv (k : ℕ) : countSubmit (preEv k) = 0 := by
  unfold preEv
  split_ifs <;> rfl

/-- Cons of a submit event adds one submission. -/
lemma countSubmit_cons_submit (p : ℤ) (l : List Ev) :
    countSubmit (Ev.submit p :: l) = countSubmit l + 1 := by
  simp [countSubmit, List.filter_cons, isSubmitEv]

/-- The empty trace has no submission. -/
lemma countSubmit_nil : countSubmit [] = 0 := rfl

/-- The computed price of the end-to-end quote at offset -5.00 for a long
order: 9060200 - (-500) = 9060700. -/
lemma price_c1Quote_long : computeOrderPrice c1Quote (-5) Direction.long = some 9060700 := by
  simp only [c1Quote, computeOrderPrice, Option.map_some', Option.some.injEq]
  norm_num [offsetCents, pyRound]

/-- The loop never performs more submissions than it has fuel. -/
lemma retryLoop_count_le (d : Direction) (off : ℚ) (env : ℕ → Attempt) :
    ∀ fuel k, countSubmit (retryLoop d off env fuel k).2 ≤ fuel := by
  intro fuel
  induction fuel with
  | zero =>
    intro k
    simp [retryLoop, countSubmit]
  | succ n ih =>
    intro k
    cases hq : (env k).quote.bind (fun q => computeOrderPrice q off d) with
    | none =>
      simp [retryLoop, hq, countSubmit_preEv]
    | some p =>
      cases hs : (env k).submitOk with
      | false =>
        simp [retryLoop, hq, hs, countSubmit_append, countSubmit_preEv,
          countSubmit_cons_submit, countSubmit_nil]
      | true =>
        cases hm : (env k).monitor with
        | filled =>
          simp [retryLoop, hq, hs, hm, countSubmit_append, countSubmit_preEv,
            countSubmit_cons_submit, countSubmit_nil]
        | timedOut =>
          simp [retryLoop, hq, hs, hm, countSubmit_append, countSubmit_preEv,
            countSubmit_cons_submit, countSubmit_nil]
        | needsResubmit =>
          have hrec := ih (k + 1)
          simp [retryLoop, hq, hs, hm, countSubmit_append, countSubmit_preEv,
            countSubmit_cons_submit]
          omega

/-- A trace started at a positive retry count is empty or opens with a
cancel. -/
lemma retryLoop_head (d : Direction) (off : ℚ) (env : ℕ → Attempt) (fuel k : ℕ)
    (hk : 0 < k) :
    (retryLoop d off env fuel k).2 = []
    ∨ ∃ t, (retryLoop d off env fuel k).2 = Ev.cancel :: t := by
  cases fuel with
  | zero => exact Or.inl rfl
  | succ n =>
    have hpre : preEv k = [Ev.cancel] := if_pos hk
    cases hq : (env k).quote.bind (fun q => computeOrderPrice q off d) with
    | none =>
      exact Or.inr ⟨[], by simp [retryLoop, hq, hpre]⟩
    | some p =>
      cases hs : (env k).submitOk with
      | false =>
        exact Or.inr ⟨[Ev.submit p], by simp [retryLoop, hq, hs, hpre]⟩
      | true =>
        cases hm : (env k).monitor with
        | filled =>
          exact Or.inr ⟨[Ev.submit p], by simp [retryLoop, hq, hs, hm, hpre]⟩
        | timedOut =>
          exact Or.inr ⟨[Ev.submit p], by simp [retryLoop, hq, hs, hm, hpre]⟩
        | needsResubmit =>
          exact Or.inr ⟨Ev.submit p :: (retryLoop d off env n (k + 1)).2,
            by simp [retryLoop, hq, hs, hm, hpre]⟩

/-- A leading cancel never violates the cancel-before-resubmission check. -/
lemma eachResub_cancel_cons (l : List Ev) :
    eachResubAfterCancel (Ev.cancel :: l) = eachResubAfterCancel l := by
  cases l with
  | nil => rfl
  | cons y t => simp [eachResubAfterCancel, isCancelEv]

/-- A submit may be prepended to an empty or cancel-opened trace without
violating the cancel-before-resubmission check. -/
lemma eachResub_submit_cons (p : ℤ) (l : List Ev)
    (h : l = [] ∨ ∃ t, l = Ev.cancel :: t) :
    eachResubAfterCancel (Ev.submit p :: l) = eachResubAfterCancel l := by
  rcases h with h | ⟨t, h⟩ <;> subst h
  · rfl
  · simp [eachResubAfterCancel, isSubmitEv, isCancelEv]

/-- Every trace the loop produces passes the cancel-before-resubmission
check. -/
lemma retryLoop_eachResub (d : Direction) (off : ℚ) (env : ℕ → Attempt) :
    ∀ fuel k, eachResubAfterCancel (retryLoop d off env fuel k).2 = true := by
  intro fuel
  induction fuel with
  | zero => intro k; rfl
  | succ n ih =>
    intro k
    cases hq : (env k).quote.bind (fun q => computeOrderPrice q off d) with
    | none =>
      have htr : (retryLoop d off env (n + 1) k).2 = preEv k := by simp [retryLoop, hq]
      rw [htr]
      unfold preEv
      split_ifs <;> rfl
    | some p =>
      cases hs : (env k).submitOk with
      | false =>
        have htr : (retryLoop d off env (n + 1) k).2 = preEv k ++ [Ev.submit p] := by
          simp [retryLoop, hq, hs]
        rw [htr]
        unfold preEv
        split_ifs <;> rfl
      | true =>
        cases hm : (env k).monitor with
        | filled =>
          have htr : (retryLoop d off env (n + 1) k).2 = preEv k ++ [Ev.submit p] := by
            simp [retryLoop, hq, hs, hm]
          rw [htr]
          unfold preEv
          split_ifs <;> rfl
        | timedOut =>
          have htr : (retryLoop d off env (n + 1) k).2 = preEv k ++ [Ev.submit p] := by
            simp [retryLoop, hq, hs, hm]
          rw [htr]
          unfold preEv
          split_ifs <;> rfl
        | needsResubmit =>
          have htr : (retryLoop d off env (n + 1) k).2
              = preEv k ++ Ev.submit p :: (retryLoop d off env n (k + 1)).2 := by
            simp [retryLoop, hq, hs, hm]
          rw [htr]
          have hh := retryLoop_head d off env n (k + 1) (by omega)
          have hsub := eachResub_submit_cons p _ hh
          unfold preEv
          split_ifs with hk
          · rw [List.singleton_append, eachResub_cancel_cons, hsub]
            exact ih (k + 1)
          · rw [List.nil_append, hsub]
            exact ih (k + 1)

/-- A filled attempt ends the loop at once with success, independently of the
remaining fuel. -/
lemma retryLoop_stop_filled (d : Direction) (off : ℚ) (env : ℕ → Attempt)
    (fuel k : ℕ) (p : ℤ)
    (hq : ((env k).quote.bind fun q => computeOrderPrice q off d) = some p)
    (hs : (env k).submitOk = true)
    (hm : (env k).monitor = MonitorOutcome.filled) :
    retryLoop d off env (fuel + 1) k = (true, preEv k ++ [Ev.submit p]) := by
  simp [retryLoop, hq, hs, hm]

/-- A timed-out attempt ends the loop at once with failure, independently of
the remaining fuel. -/
lemma retryLoop_stop_timedOut (d : Direction) (off : ℚ) (env : ℕ → Attempt)
    (fuel k : ℕ) (p : ℤ)
    (hq : ((env k).quote.bind fun q => computeOrderPrice q off d) = some p)
    (hs : (env k).submitOk = true)
    (hm : (env k).monitor = MonitorOutcome.timedOut) :
    retryLoop d off env (fuel + 1) k = (false, preEv k ++ [Ev.submit p]) := by
  simp [retryLoop, hq, hs, hm]

/-- A failed submission ends the loop at once with failure, independently of
the remaining fuel. -/
lemma retryLoop_stop_fail (d : Direction) (off : ℚ) (env : ℕ → Attempt)
    (fuel k : ℕ) (p : ℤ)
    (hq : ((env k).quote.bind fun q => computeOrderPrice q off d) = some p)
    (hs : (env k).submitOk = false) :
    retryLoop d off env (fuel + 1) k = (false, preEv k ++ [Ev.submit p]) := by
  simp [retryLoop, hq, hs]

/-- When every monitor round asks for resubmission the loop never reports
success. -/
lemma retryLoop_resubmit_false (d : Direction) (off : ℚ) (env : ℕ → Attempt)
    (hall : ∀ j, (env j).monitor = MonitorOutcome.needsResubmit) :
    ∀ fuel k, (retryLoop d off env fuel k).1 = false := by
  intro fuel
  induction fuel with
  | zero => intro k; rfl
  | succ n ih =>
    intro k
    cases hq : (env k).quote.bind (fun q => computeOrderPrice q off d) with
    | none => simp [retryLoop, hq]
    | some p =>
      cases hs : (env k).submitOk with
      | false => simp [retryLoop, hq, hs]
      | true =>
        simp [retryLoop, hq, hs, hall k]
        exact ih (k + 1)

/-- Against the always-resubmit environment the loop spends its whole fuel,
one submission per unit. -/
lemma retryLoop_allResubmit_count (d : Direction) (off : ℚ) :
    ∀ fuel k, countSubmit (retryLoop d off allResubmitEnv fuel k).2 = fuel := by
  intro fuel
  induction fuel with
  | zero => intro k; rfl
  | succ n ih =>
    intro k
    obtain ⟨p, hq⟩ : ∃ p,
        ((allResubmitEnv k).quote.bind fun q => computeOrderPrice q off d) = some p := by
      cases d with
      | long => exact ⟨9060200 - offsetCents off, by simp [allResubmitEnv, computeOrderPrice]⟩
      | short => exact ⟨9060400 + |offsetCents off|, by simp [allResubmitEnv, computeOrderPrice]⟩
    have hs : (allResubmitEnv k).submitOk = true := rfl
    have hm : (allResubmitEnv k).monitor = MonitorOutcome.needsResubmit := rfl
    have hrec := ih (k + 1)
    simp [retryLoop, hq, hs, hm, countSubmit_append, countSubmit_preEv, countSubmit_cons_submit]
    omega

/-- C6: the retry loop performs at most maxRetries submissions (so at most
maxRetries resubmissions), every submission other than the first in the trace
is immediately preceded by a cancel-all call, a Filled monitor outcome
returns success at once whatever fuel remains, and a TimedOut outcome or a
failed submission returns failure at once whatever fuel remains. -/
theorem c6_retry_bounds (d : Direction) (off : ℚ) (env : ℕ → Attempt)
    (maxRetries fuel k1 k2 k3 : ℕ) (p1 p2 p3 : ℤ)
    (h1q : ((env k1).quote.bind fun q => computeOrderPrice q off d) = some p1)
    (h1s : (env k1).submitOk = true)
    (h1m : (env k1).monitor = MonitorOutcome.filled)
    (h2q : ((env k2).quote.bind fun q => computeOrderPrice q off d) = some p2)
    (h2s : (env k2).submitOk = true)
    (h2m : (env k2).monitor = MonitorOutcome.timedOut)
    (h3q : ((env k3).quote.bind fun q => computeOrderPrice q off d) = some p3)
    (h3s : (env k3).submitOk = false) :
    countSubmit (execute_nado_order_with_retry d off env maxRetries).2 ≤ maxRetries
    ∧ eachResubAfterCancel (execute_nado_order_with_retry d off env maxRetries).2 = true
    ∧ retryLoop d off env (fuel + 1) k1 = (true, preEv k1 ++ [Ev.submit p1])
    ∧ retryLoop d off env (fuel + 1) k2 = (false, preEv k2 ++ [Ev.submit p2])
    ∧ retryLoop d off env (fuel + 1) k3 = (false, preEv k3 ++ [Ev.submit p3]) :=
  ⟨retryLoop_count_le d off env maxRetries 0,
   retryLoop_eachResub d off env maxRetries 0,
   retryLoop_stop_filled d off env fuel k1 p1 h1q h1s h1m,
   retryLoop_stop_timedOut d off env fuel k2 p2 h2q h2s h2m,
   retryLoop_stop_fail d off env fuel k3 p3 h3q h3s⟩

/-- C6 witness: against c6Env, a three-retry run stays within its submission
budget with a well-formed trace, attempt 0 fills at once, attempt 1 times out
at once, attempt 2 fails to submit at once. -/
theorem c6_retry_bounds_witness :
    countSubmit (execute_nado_order_with_retry Direction.long (-5) c6Env 3).2 ≤ 3
    ∧ eachResubAfterCancel (execute_nado_order_with_retry Direction.long (-5) c6Env 3).2 = true
    ∧ retryLoop Direction.long (-5) c6Env 1 0 = (true, preEv 0 ++ [Ev.submit 9060700])
    ∧ retryLoop Direction.long (-5) c6Env 1 1 = (false, preEv 1 ++ [Ev.submit 9060700])
    ∧ retryLoop Direction.long (-5) c6Env 1 2 = (false, preEv 2 ++ [Ev.submit 9060700]) := by
  apply c6_retry_bounds Direction.long (-5) c6Env 3 0 0 1 2 9060700 9060700 9060700
  · simpa [c6Env] using price_c1Quote_long
  · rfl
  · rfl
  · simpa [c6Env] using price_c1Quote_long
  · rfl
  · rfl
  · simpa [c6Env] using price_c1Quote_long
  · rfl

/-- C7: in method1 and method2, the variational hedge leg is attempted
exactly when the primary leg reported Filled: a filled run hedges with the
opposite direction and the configured size, an unfilled run (timeout,
submission failure, or exhausted retries) never hedges; and a run whose
monitor always asks for resubmission exhausts its retries and is reported as
a plain unfilled, unhedged result, not an exception. -/
theorem c7_hedge_only_after_fill (cfg : TradeConfig) (env env2 : ℕ → Attempt)
    (hall : ∀ j, (env2 j).monitor = MonitorOutcome.needsResubmit) :
    ((method1 cfg env).filled = true →
      (method1 cfg env).hedge = some { direction := Direction.short, size := cfg.size })
    ∧ ((method1 cfg env).filled = false → (method1 cfg env).hedge = none)
    ∧ ((method2 cfg env).filled = true →
      (method2 cfg env).hedge = some { direction := Direction.long, size := cfg.size })
    ∧ ((method2 cfg env).filled = false → (method2 cfg env).hedge = none)
    ∧ (method1 cfg env2).filled = false
    ∧ (method1 cfg env2).hedge = none
    ∧ (method2 cfg env2).filled = false
    ∧ (method2 cfg env2).hedge = none := by
  have hm1 : (retryLoop Direction.long cfg.priceOffset env2 3 0).1 = false :=
    retryLoop_resubmit_false Direction.long cfg.priceOffset env2 hall 3 0
  have hm2 : (retryLoop Direction.short cfg.priceOffset env2 999 0).1 = false :=
    retryLoop_resubmit_false Direction.short cfg.priceOffset env2 hall 999 0
  refine ⟨?_, ?_, ?_, ?_, hm1, ?_, hm2, ?_⟩
  · intro h
    have h2 : (execute_nado_order_with_retry Direction.long cfg.priceOffset env 3).1
        = true := h
    simp [method1, h2]
  · intro h
    have h2 : (execute_nado_order_with_retry Direction.long cfg.priceOffset env 3).1
        = false := h
    simp [method1, h2]
  · intro h
    have h2 : (execute_nado_order_with_retry Direction.short cfg.priceOffset env 999).1
        = true := h
    simp [method2, h2]
  · intro h
    have h2 : (execute_nado_order_with_retry Direction.short cfg.priceOffset env 999).1
        = false := h
    simp [method2, h2]
  · have h2 : (execute_nado_order_with_retry Direction.long cfg.priceOffset env2 3).1
        = false := hm1
    simp [method1, h2]
  · have h2 : (execute_nado_order_with_retry Direction.short cfg.priceOffset env2 999).1
        = false := hm2
    simp [method2, h2]

/-- C7 witness: against the immediately-filling environment the hedge
implications hold, and against the always-resubmit environment both methods
exhaust their retries, report no fill and skip the hedge. -/
theorem c7_hedge_only_after_fill_witness :
    ((method1 btcConfig c1Env).filled = true →
      (method1 btcConfig c1Env).hedge
        = some { direction := Direction.short, size := btcConfig.size })
    ∧ ((method1 btcConfig c1Env).filled = false → (method1 btcConfig c1Env).hedge = none)
    ∧ ((method2 btcConfig c1Env).filled = true →
      (method2 btcConfig c1Env).hedge
        = some { direction := Direction.long, size := btcConfig.size })
    ∧ ((method2 btcConfig c1Env).filled = false → (method2 btcConfig c1Env).hedge = none)
    ∧ (method1 btcConfig allResubmitEnv).filled = false
    ∧ (method1 btcConfig allResubmitEnv).hedge = none
    ∧ (method2 btcConfig allResubmitEnv).filled = false
    ∧ (method2 btcConfig allResubmitEnv).hedge = none :=
  c7_hedge_only_after_fill btcConfig c1Env allResubmitEnv (fun _ => rfl)

/-- C10: method1 runs the primary leg long with a retry budget of 3 while
method2 runs it short with a retry budget of 999; against identical monitor
outcomes (always resubmit, quotes and submissions fine) method1 submits 3
orders and method2 submits 999. -/
theorem c10_retry_budgets (cfg : TradeConfig) :
    (∀ env, (method1 cfg env).trace
      = (execute_nado_order_with_retry Direction.long cfg.priceOffset env 3).2)
    ∧ (∀ env, (method2 cfg env).trace
      = (execute_nado_order_with_retry Direction.short cfg.priceOffset env 999).2)
    ∧ countSubmit (method1 cfg allResubmitEnv).trace = 3
    ∧ countSubmit (method2 cfg allResubmitEnv).trace = 999 := by
  refine ⟨fun _ => rfl, fun _ => rfl, ?_, ?_⟩
  · exact retryLoop_allResubmit_count Direction.long cfg.priceOffset 3 0
  · exact retryLoop_allResubmit_count Direction.short cfg.priceOffset 999 0

/-- C1 (amended): in the end-to-end scenario (symbol BTC, size 0.0001, offset
-5.00, direction long, quote bid 9060200 / ask 9060400) the computed order
price is 9060700, the offset -5.00 scaling to -500 cents which line 861
subtracts from the bid; when a poll within the retry timeout observes a value
differing from the baseline the monitor reports Filled; and the filled run of
method1 attempts the hedge on the secondary venue with the opposite direction
short and the same size 0.0001, the single submission carrying the computed
price. -/
theorem c1_end_to_end (b v : Option String) (r : ℕ → Option (Option String))
    (hr : r 0 = some v) (hv : v ≠ b) :
    computeOrderPrice c1Quote (-5) Direction.long = some 9060700
    ∧ monitor_order_fill nadoCfg b r 1 0 = some MonitorOutcome.filled
    ∧ (method1 btcConfig c1Env).filled = true
    ∧ (method1 btcConfig c1Env).hedge = some { direction := Direction.short, size := "0.0001" }
    ∧ (method1 btcConfig c1Env).trace = [Ev.submit 9060700] := by
  have hq : ((c1Env 0).quote.bind fun q =>
      computeOrderPrice q (-5 : ℚ) Direction.long) = some 9060700 := by
    simpa [c1Env] using price_c1Quote_long
  have hrun : retryLoop Direction.long (-5) c1Env 3 0
      = (true, preEv 0 ++ [Ev.submit 9060700]) :=
    retryLoop_stop_filled Direction.long (-5) c1Env 2 0 9060700 hq (by rfl) (by rfl)
  refine ⟨price_c1Quote_long, ?_, ?_, ?_, ?_⟩
  · apply monitor_stop_filled nadoCfg b r 0 0 v ?_ ?_ hr hv
    · norm_num [nadoCfg]
    · norm_num [nadoCfg]
  · simp [method1, execute_nado_order_with_retry, btcConfig, hrun]
  · simp [method1, execute_nado_order_with_retry, btcConfig, hrun]
  · simp [method1, execute_nado_order_with_retry, btcConfig, hrun, preEv]

/-- C1 witness: a run with no initial position whose first poll reads the new
position string observes the change at once, and the end-to-end conclusions
hold at that input. -/
theorem c1_end_to_end_witness :
    computeOrderPrice c1Quote (-5) Direction.long = some 9060700
    ∧ monitor_order_fill nadoCfg none (fun _ => some (some "0.0001 BTC")) 1 0
      = some MonitorOutcome.filled
    ∧ (method1 btcConfig c1Env).filled = true
    ∧ (method1 btcConfig c1Env).hedge = some { direction := Direction.short, size := "0.0001" }
    ∧ (method1 btcConfig c1Env).trace = [Ev.submit 9060700] :=
  c1_end_to_end none (some "0.0001 BTC") (fun _ => some (some "0.0001 BTC")) rfl
    (by simp)
